import Mathlib

/-!
Verification of the FW Cycle Time Monitor core (fw_cycle_monitor).

This file shallowly embeds the event-recording and state-reconciliation
subsystem of the repository:

* `CycleCounter` embeds `_CycleCounter` from `gpio_monitor.py`.
* `PyDateTime` models Python `datetime.datetime` values: a wall-clock
  instant at second resolution together with an optional UTC offset
  (`none` models a naive datetime).  Python datetime ordering and
  `timedelta` arithmetic are isomorphic to arithmetic on
  seconds-since-0001-01-01, which is how we represent the wall clock.
  Sub-second precision is not modelled; every timestamp exercised by the
  specification's examples is a whole second.
* Comparison of a naive and an aware datetime raises `TypeError` in
  Python; we model the comparison as `Except`-valued.
* The storage layer (state store, sidecar state, CSV log, spool) is
  modelled by explicit state passing; a transient I/O failure of an
  append is modelled by a boolean outcome parameter (a failed append
  writes nothing, as when `os.open` itself fails).
-/

/-- Model of Python `datetime.datetime`: `seconds` is the wall-clock value
as seconds since 0001-01-01T00:00:00 (the proleptic-Gregorian ordinal
scale Python itself uses), `tz` is the UTC offset in seconds, `none` for
a naive datetime. -/
structure PyDateTime where
  seconds : Int
  tz : Option Int
deriving Repr, DecidableEq

/-- Python errors that the embedded code can raise. -/
inductive PyError where
  | typeError
deriving Repr, DecidableEq

/-- The UTC instant an aware datetime denotes (wall clock minus offset). -/
def PyDateTime.instant (d : PyDateTime) (off : Int) : Int := d.seconds - off

/-- Python `a > b` on datetimes: naive/naive and aware/aware compare
(aware ones by UTC instant); mixing naive and aware raises `TypeError`. -/
def pyGt (a b : PyDateTime) : Except PyError Bool :=
  match a.tz, b.tz with
  | none, none => .ok (decide (b.seconds < a.seconds))
  | some x, some y => .ok (decide (b.instant y < a.instant x))
  | _, _ => .error .typeError

/-- `datetime.replace(tzinfo=timezone.utc)` applied when naive: keep the
wall clock, attach a zero offset (used by the sidecar loader and the
post-reconciliation normalisation). -/
def PyDateTime.utcIfNaive (d : PyDateTime) : PyDateTime :=
  match d.tz with
  | none => { d with tz := some 0 }
  | some _ => d

/-- `datetime.astimezone()` on an aware datetime: same UTC instant
re-expressed with the local offset `localOff` (wall clock shifts by the
offset difference). -/
def PyDateTime.astimezoneLocal (d : PyDateTime) (localOff : Int) : PyDateTime :=
  match d.tz with
  | some off => { seconds := d.seconds - off + localOff, tz := some localOff }
  | none => { seconds := d.seconds, tz := some localOff }

/-- Wall-clock seconds of a datetime; `_CycleCounter` arithmetic
(`replace`, `timedelta(days=1)`, comparisons) operates on datetimes that
all carry the same offset, for which it coincides with arithmetic on the
wall-clock value. -/
def PyDateTime.wall (d : PyDateTime) : Int := d.seconds

/-! ## Calendar arithmetic and ISO-8601 timestamp strings

`datetime.fromisoformat` / `datetime.isoformat` are modelled for the
format this repository itself writes: `YYYY-MM-DDTHH:MM:SS` with an
optional `+HH:MM` / `-HH:MM` offset.  Strings outside this grammar are
treated as unparsable (Python would accept a few more shapes, but no
claim depends on them). -/

/-- Leap year in the proleptic Gregorian calendar (Python's calendar). -/
def isLeapYear (y : Nat) : Bool :=
  y % 4 == 0 && (y % 100 != 0 || y % 400 == 0)

/-- Length of a month. -/
def daysInMonth (y m : Nat) : Nat :=
  if m == 2 then (if isLeapYear y then 29 else 28)
  else if m == 4 || m == 6 || m == 9 || m == 11 then 30
  else 31

/-- Days in all years strictly before year `y` (year 1 is the first). -/
def daysBeforeYear (y : Nat) : Nat :=
  (y - 1) * 365 + (y - 1) / 4 - (y - 1) / 100 + (y - 1) / 400

/-- Days in the months of year `y` strictly before month `m`. -/
def daysBeforeMonth (y m : Nat) : Nat :=
  (List.range (m - 1)).foldl (fun acc i => acc + daysInMonth y (i + 1)) 0

/-- Python `date.toordinal`: day number of `y-m-d` with 0001-01-01 = 1. -/
def toOrdinal (y m d : Nat) : Nat :=
  daysBeforeYear y + daysBeforeMonth y m + d

/-- Wall-clock seconds since 0001-01-01T00:00:00 of a calendar datetime. -/
def civilSeconds (y mo d h mi s : Nat) : Int :=
  ((toOrdinal y mo d - 1) * 86400 + h * 3600 + mi * 60 + s : Nat)

/-- Inverse of `toOrdinal` (closed-form civil-from-days): calendar date of
day number `z` counted with 0001-01-01 = 1. -/
def civilFromOrdinal (ord : Nat) : Nat × Nat × Nat :=
  -- shift so that day 0 is 0000-03-01 (era-based computation)
  let z := ord + 305
  let era := z / 146097
  let doe := z % 146097
  let yoe := (doe - doe / 1460 + doe / 36524 - doe / 146096) / 365
  let y := era * 400 + yoe
  let doy := doe - (365 * yoe + yoe / 4 - yoe / 100)
  let mp := (5 * doy + 2) / 153
  let d := doy - (153 * mp + 2) / 5 + 1
  let m := if mp < 10 then mp + 3 else mp - 9
  (if m ≤ 2 then y + 1 else y, m, d)

/-- Value of a decimal-digit character. -/
def digitVal (c : Char) : Option Nat :=
  if c.isDigit then some (c.toNat - 48) else none

/-- Two-digit decimal field. -/
def parse2 (a b : Char) : Option Nat :=
  match digitVal a, digitVal b with
  | some x, some y => some (10 * x + y)
  | _, _ => none

/-- Four-digit decimal field. -/
def parse4 (a b c d : Char) : Option Nat :=
  match digitVal a, digitVal b, digitVal c, digitVal d with
  | some w, some x, some y, some z => some (1000 * w + 100 * x + 10 * y + z)
  | _, _, _, _ => none

/-- Build a datetime from calendar fields, validating ranges the way the
`datetime` constructor does (invalid fields make the parse fail). -/
def mkPyDateTime (y mo d h mi s : Nat) (tz : Option Int) : Option PyDateTime :=
  if 1 ≤ y ∧ y ≤ 9999 ∧ 1 ≤ mo ∧ mo ≤ 12 ∧ 1 ≤ d ∧ d ≤ daysInMonth y mo
      ∧ h ≤ 23 ∧ mi ≤ 59 ∧ s ≤ 59 then
    some { seconds := civilSeconds y mo d h mi s, tz := tz }
  else none

/-- Datetime from the 19 date-time characters plus an optional offset. -/
def fromIsoChars (y1 y2 y3 y4 m1 m2 d1 d2 h1 h2 i1 i2 s1 s2 : Char)
    (tz : Option Int) : Option PyDateTime :=
  match parse4 y1 y2 y3 y4, parse2 m1 m2, parse2 d1 d2,
      parse2 h1 h2, parse2 i1 i2, parse2 s1 s2 with
  | some y, some mo, some d, some h, some mi, some s => mkPyDateTime y mo d h mi s tz
  | _, _, _, _, _, _ => none

/-- `datetime.fromisoformat` on the strings this repository writes:
`YYYY-MM-DDTHH:MM:SS`, optionally followed by `+HH:MM` or `-HH:MM`. -/
def fromisoformat (str : String) : Option PyDateTime :=
  match str.data with
  | [y1, y2, y3, y4, '-', m1, m2, '-', d1, d2, 'T',
     h1, h2, ':', i1, i2, ':', s1, s2] =>
      fromIsoChars y1 y2 y3 y4 m1 m2 d1 d2 h1 h2 i1 i2 s1 s2 none
  | [y1, y2, y3, y4, '-', m1, m2, '-', d1, d2, 'T',
     h1, h2, ':', i1, i2, ':', s1, s2, sign, o1, o2, ':', o3, o4] =>
      match parse2 o1 o2, parse2 o3 o4 with
      | some oh, some om =>
          if oh ≤ 23 ∧ om ≤ 59 then
            let off : Int := (oh * 3600 + om * 60 : Nat)
            if sign = '+' then
              fromIsoChars y1 y2 y3 y4 m1 m2 d1 d2 h1 h2 i1 i2 s1 s2 (some off)
            else if sign = '-' then
              fromIsoChars y1 y2 y3 y4 m1 m2 d1 d2 h1 h2 i1 i2 s1 s2 (some (-off))
            else none
          else none
      | _, _ => none
  | _ => none

/-- Zero-padded decimal rendering. -/
def padNum (width n : Nat) : String :=
  let s := toString n
  String.mk (List.replicate (width - s.length) '0') ++ s

/-- `datetime.isoformat()` for the datetimes this repository produces
(whole seconds; offsets that are whole minutes). -/
def isoformatPy (dt : PyDateTime) : String :=
  let secs := dt.seconds.toNat
  let p := civilFromOrdinal (secs / 86400 + 1)
  let rest := secs % 86400
  let base := padNum 4 p.1 ++ "-" ++ padNum 2 p.2.1 ++ "-" ++ padNum 2 p.2.2
    ++ "T" ++ padNum 2 (rest / 3600) ++ ":" ++ padNum 2 (rest % 3600 / 60)
    ++ ":" ++ padNum 2 (rest % 60)
  match dt.tz with
  | none => base
  | some off =>
      if 0 ≤ off then
        base ++ "+" ++ padNum 2 (off.toNat / 3600) ++ ":" ++ padNum 2 (off.toNat % 3600 / 60)
      else
        base ++ "-" ++ padNum 2 ((-off).toNat / 3600) ++ ":" ++ padNum 2 ((-off).toNat % 3600 / 60)

/-! ## `_CycleCounter` (gpio_monitor.py lines 45-82) -/

/-- State of `_CycleCounter`: reset hour, current count, and the next
reset boundary (`none` when not yet configured).  Timestamps are
wall-clock seconds. -/
structure CycleCounter where
  reset_hour : Nat
  count : Int
  next_reset : Option Int
deriving Repr, DecidableEq

namespace CycleCounter

/-- `_CycleCounter.__init__(reset_hour)`. -/
def init (reset_hour : Nat := 3) : CycleCounter :=
  { reset_hour := reset_hour, count := 0, next_reset := none }

/-- `_calculate_next_reset`: `reference.replace(hour=reset_hour, minute=0,
second=0, microsecond=0)` is the start of `reference`'s day plus
`reset_hour` hours; return it if still strictly ahead of `reference`,
else the same boundary one day later. -/
def calculate_next_reset (c : CycleCounter) (reference : Int) : Int :=
  let cycle_reset := (Int.fdiv reference 86400) * 86400 + (c.reset_hour : Int) * 3600
  if reference < cycle_reset then cycle_reset else cycle_reset + 86400

/-- `_CycleCounter.configure(reference, current_count)`. -/
def configure (c : CycleCounter) (reference : Int) (current_count : Int) : CycleCounter :=
  { c with count := current_count, next_reset := some (c.calculate_next_reset reference) }

end CycleCounter

/-- The `while timestamp >= next_reset` loop body of `_CycleCounter.record`:
zero the count and advance the boundary a day at a time until it passes
the timestamp; returns the final `(count, next_reset)`. -/
def resetLoop (t : Int) (count : Int) (nr : Int) : Int × Int :=
  if h : nr ≤ t then resetLoop t 0 (nr + 86400) else (count, nr)
termination_by (t + 1 - nr).toNat
decreasing_by
  omega

namespace CycleCounter

/-- `_CycleCounter.record(timestamp)`: when `next_reset` is unset,
`configure(timestamp, count)` first (which leaves `count` unchanged and
sets the boundary); then run the reset loop and increment. -/
def record (c : CycleCounter) (t : Int) : Int × CycleCounter :=
  let nr0 := match c.next_reset with
    | none => c.calculate_next_reset t
    | some nr => nr
  let p := resetLoop t c.count nr0
  (p.1 + 1, { c with count := p.1 + 1, next_reset := some p.2 })

/-- Recording a list of timestamps in order, collecting the returned
cycle numbers. -/
def recordList (c : CycleCounter) : List Int → List Int × CycleCounter
  | [] => ([], c)
  | t :: ts =>
      let p := c.record t
      let q := p.2.recordList ts
      (p.1 :: q.1, q.2)

end CycleCounter

/-! ## State persistence (state.py, gpio_monitor.py sidecar logic)

A persisted per-machine entry holds `last_cycle` and the `last_timestamp`
ISO string exactly as stored on disk.  Missing file, malformed JSON, a
non-dict `machines` key, or a non-dict entry all make the entry absent
(`none`) before the code below runs; an entry whose `last_cycle` fails
Python's `int()` conversion is likewise modelled as absent (those paths
all return `None` in the source). -/

/-- `MachineState` dataclass (state.py lines 18-24). -/
structure MachineState where
  machine_id : String
  last_cycle : Int
  last_timestamp : PyDateTime
deriving Repr, DecidableEq

/-- A well-shaped on-disk entry: integer cycle plus the raw timestamp
string (`{"last_cycle": .., "last_timestamp": ".."}`). -/
structure StoredEntry where
  last_cycle : Int
  last_timestamp : String
deriving Repr, DecidableEq

/-- `load_cycle_state` (state.py lines 45-65): parse the timestamp with
`datetime.fromisoformat`; a `ValueError` is caught and yields `None`.
The parsed timestamp is kept as-is — a naive string stays naive. -/
def load_cycle_state (machine_id : String) (entry : Option StoredEntry) :
    Option MachineState :=
  match entry with
  | none => none
  | some e =>
      match fromisoformat e.last_timestamp with
      | none => none
      | some ts => some ⟨machine_id, e.last_cycle, ts⟩

/-- `CycleMonitor._load_sidecar_state` (gpio_monitor.py lines 578-601):
same parsing, but a naive timestamp is given `tzinfo=timezone.utc`. -/
def load_sidecar_state (machine_id : String) (entry : Option StoredEntry) :
    Option MachineState :=
  match entry with
  | none => none
  | some e =>
      match fromisoformat e.last_timestamp with
      | none => none
      | some ts => some ⟨machine_id, e.last_cycle, ts.utcIfNaive⟩

/-- The writes `_restore_counter_state` performs while reconciling:
arguments of the `save_cycle_state` call (sync backward into the shared
state store) and of the `_persist_sidecar_state` call (sync forward). -/
structure SaveOps where
  state_store : Option (Int × PyDateTime)
  sidecar : Option (Int × PyDateTime)
deriving Repr, DecidableEq

/-- Outcome of `_restore_counter_state`: the adopted state, the sync
writes performed, and the resulting counter. -/
structure RestoreResult where
  chosen : Option MachineState
  saves : SaveOps
  counter : CycleCounter
  counter_initialized : Bool
deriving Repr, DecidableEq

/-- `CycleMonitor._restore_counter_state` (gpio_monitor.py lines
118-172).  With both sources present the comparison
`sidecar.last_timestamp > persisted.last_timestamp` runs first and, like
Python, raises `TypeError` on a naive/aware mix; the winning state is
adopted and re-saved into the losing store.  With one source it is
adopted with no sync write.  The adopted timestamp is treated as UTC if
naive, converted to the local zone (`localOff`), and seeds the counter. -/
def restore_counter_state (counter : CycleCounter)
    (persisted sidecar : Option MachineState) (localOff : Int) :
    Except PyError RestoreResult :=
  let finish : Option MachineState × SaveOps → RestoreResult := fun data =>
    match data.1 with
    | none => ⟨none, data.2, counter, false⟩
    | some chosen =>
        ⟨some chosen, data.2,
          counter.configure
            (((chosen.last_timestamp.utcIfNaive).astimezoneLocal localOff).wall)
            chosen.last_cycle, true⟩
  match persisted, sidecar with
  | some p, some s =>
      match pyGt s.last_timestamp p.last_timestamp with
      | .error e => .error e
      | .ok true => .ok (finish (some s, ⟨some (s.last_cycle, s.last_timestamp), none⟩))
      | .ok false => .ok (finish (some p, ⟨none, some (p.last_cycle, p.last_timestamp)⟩))
  | some p, none => .ok (finish (some p, ⟨none, none⟩))
  | none, some s => .ok (finish (some s, ⟨none, none⟩))
  | none, none => .ok (finish (none, ⟨none, none⟩))

/-- Start-up reconciliation straight from the two on-disk entries:
`load_cycle_state` + `_load_sidecar_state` + `_restore_counter_state`. -/
def restore_from_stores (counter : CycleCounter) (machine_id : String)
    (storeEntry sidecarEntry : Option StoredEntry) (localOff : Int) :
    Except PyError RestoreResult :=
  restore_counter_state counter
    (load_cycle_state machine_id storeEntry)
    (load_sidecar_state machine_id sidecarEntry) localOff

/-! ## Event log, spool and pending rows (gpio_monitor.py lines 331-569)

The log is the list of data rows after the header; the spool file is
`none` when absent.  A transient append failure (`OSError` from the
open/write) is modelled by the `io_ok` flag and writes nothing. -/

/-- In-memory and on-disk log state of one `CycleMonitor`. -/
structure LogState where
  csv : List (List String)
  spool : Option (List (List String))
  pending : List (List String)
  pending_loaded : Bool
deriving Repr, DecidableEq

/-- `_load_pending_rows` (lines 502-515): once per process, append every
spooled row having at least 3 fields (truncated to 3) to the pending
list. -/
def load_pending_rows (st : LogState) : LogState :=
  if st.pending_loaded then st
  else
    let rows := match st.spool with
      | none => []
      | some rows => (rows.filter (fun r => 3 ≤ r.length)).map (fun r => r.take 3)
    { st with pending := st.pending ++ rows, pending_loaded := true }

/-- `_persist_pending_rows` (lines 517-532): content of the spool file
afterwards — deleted when the pending list is empty, else overwritten
with exactly the pending list. -/
def persist_pending_rows (pending : List (List String)) :
    Option (List (List String)) :=
  if pending.isEmpty then none else some pending

/-- `_append_with_retry` (lines 546-569): write all pending rows followed
by the new row in one append pass; on success clear the pending list and
the spool, on failure the combined list becomes the pending list and is
spooled.  Returns the success flag alongside the new state. -/
def append_with_retry (st : LogState) (new_row : List String) (io_ok : Bool) :
    Bool × LogState :=
  let st := load_pending_rows st
  let rows_to_write := st.pending ++ [new_row]
  if io_ok then
    (true, { st with csv := st.csv ++ rows_to_write, pending := [],
                     spool := persist_pending_rows [] })
  else
    (false, { st with pending := rows_to_write,
                      spool := persist_pending_rows rows_to_write })

/-! ## Schema migration (gpio_monitor.py lines 331-468) -/

/-- The current 3-column header (`self._csv_header`). -/
def csv_header : List String := ["cycle_number", "machine_id", "timestamp"]

/-- The migration loop of `_ensure_migrated` (lines 437-448): rows with
fewer than 2 fields are skipped, the last field is parsed as a
timestamp (unparsable rows are skipped), surviving rows are replayed
through a fresh default counter to synthesise cycle numbers. -/
def migrateRows (counter : CycleCounter) : List (List String) → List (List String)
  | [] => []
  | row :: rest =>
      if 2 ≤ row.length then
        match fromisoformat (row.getLastD "") with
        | none => migrateRows counter rest
        | some ts =>
            let p := counter.record ts.wall
            (toString p.1 :: row.headD "" :: [isoformatPy ts]) :: migrateRows p.2 rest
      else migrateRows counter rest

/-- File content after `_ensure_migrated` (lines 412-468): an empty file
gets the header; a file already carrying the current header is left
untouched; any other header triggers the migration rewrite.  (The
function's migration-seed return value plays no part in the file-content
claims below.) -/
def ensure_migrated_file (rows : List (List String)) : List (List String) :=
  match rows with
  | [] => [csv_header]
  | header :: data_rows =>
      if header = csv_header then header :: data_rows
      else csv_header :: migrateRows (CycleCounter.init 3) data_rows

/-- File content after `_prepare_storage` (lines 331-410): an absent file
is created with only the header; otherwise `_ensure_migrated` runs and
the file is re-read — if its header still differs from the current
schema it is rewritten to a header-only file (lines 373-385), else the
read loop leaves the file untouched. -/
def prepare_storage_file (file : Option (List (List String))) : List (List String) :=
  match file with
  | none => [csv_header]
  | some rows =>
      let migrated := ensure_migrated_file rows
      match migrated with
      | [] => [csv_header]
      | header :: _ => if header = csv_header then migrated else [csv_header]

/-! ## Monitor orchestration (`CycleMonitor`) -/

/-- In-memory state of a `CycleMonitor` relevant to recording, plus the
two persisted state copies it writes (`save_cycle_state` target and the
sidecar file), each holding the `(last_cycle, last_timestamp)` last
saved. -/
structure Monitor where
  machine_id : String
  counter : CycleCounter
  log : LogState
  counter_initialized : Bool
  stats_last_event : Option PyDateTime
  stats_events_logged : Nat
  state_store : Option (Int × PyDateTime)
  sidecar_state : Option (Int × PyDateTime)
deriving Repr, DecidableEq

/-- `CycleMonitor._record_event` (lines 470-493): storage preparation
failure (modelled by `prepare_ok`) is caught and yields `None` with no
other effect; otherwise advance the counter, attempt the append (with
retry-to-spool), then best-effort save both state copies, and return the
cycle number whether or not the append succeeded. -/
def record_event (m : Monitor) (timestamp : PyDateTime)
    (prepare_ok append_ok : Bool) : Option Int × Monitor :=
  if prepare_ok then
    let p := m.counter.record timestamp.wall
    let row := [toString p.1, m.machine_id, isoformatPy timestamp]
    let q := append_with_retry m.log row append_ok
    (some p.1,
      { m with counter := p.2, log := q.2,
               state_store := some (p.1, timestamp),
               sidecar_state := some (p.1, timestamp) })
  else (none, m)

/-- What the invoker of an event path observes: normal completion or a
propagated exception. -/
inductive CallOutcome where
  | ok
  | raised
deriving Repr, DecidableEq

/-- `CycleMonitor._handle_event` (lines 297-311): record; on `None`
return early (no stats, no callback); otherwise update statistics and
invoke the callback inside `try/except` — a callback failure is logged
and never escapes, so the outcome is always `ok`. -/
def handle_event (m : Monitor) (timestamp : PyDateTime)
    (prepare_ok append_ok _has_callback _cb_raises : Bool) :
    Monitor × CallOutcome :=
  let r := record_event m timestamp prepare_ok append_ok
  match r.1 with
  | none => (r.2, .ok)
  | some _ =>
      let m2 := { r.2 with stats_last_event := some timestamp,
                           stats_events_logged := r.2.stats_events_logged + 1 }
      -- `self._callback(timestamp)` runs under try/except: failure logged only
      (m2, .ok)

/-- Errors `simulate_event` can propagate: a reconciliation `TypeError`
or an uncaught callback exception. -/
inductive SimError where
  | py (e : PyError)
  | callback
deriving Repr, DecidableEq

/-- `CycleMonitor.simulate_event` (lines 313-329): restore the counter
from persisted state when not yet initialised (this can itself raise),
record (result ignored), update statistics unconditionally, then invoke
the callback with **no** try/except — a raising callback propagates to
the invoker.  The returned `Monitor` is the object state left behind
even when an exception escapes. -/
def simulate_event (m : Monitor) (persisted sidecar : Option MachineState)
    (localOff : Int) (timestamp : PyDateTime)
    (prepare_ok append_ok has_callback cb_raises : Bool) :
    Monitor × Except SimError PyDateTime :=
  let restored : Except PyError Monitor :=
    if m.counter_initialized then .ok m
    else
      match restore_counter_state m.counter persisted sidecar localOff with
      | .error e => .error e
      | .ok r =>
          .ok { m with counter := r.counter,
                       counter_initialized := r.counter_initialized,
                       state_store := r.saves.state_store <|> m.state_store,
                       sidecar_state := r.saves.sidecar <|> m.sidecar_state }
  match restored with
  | .error e => (m, .error (.py e))
  | .ok m1 =>
      let r := record_event m1 timestamp prepare_ok append_ok
      let m2 := { r.2 with stats_last_event := some timestamp,
                           stats_events_logged := r.2.stats_events_logged + 1 }
      if has_callback && cb_raises then (m2, .error .callback)
      else (m2, .ok timestamp)

/-! ## Configuration-derived identifiers (config.py, state.py callers) -/

/-- The slice of `AppConfig` the identity claims concern. -/
structure AppConfig where
  machine_id : String
deriving Repr, DecidableEq

/-- Python `str.strip()`: drop whitespace from both ends. -/
def pyStrip (s : String) : String :=
  String.mk (((s.data.dropWhile Char.isWhitespace).reverse.dropWhile
    Char.isWhitespace).reverse)

/-- Python `str.upper()` for the ASCII machine ids in play. -/
def pyUpper (s : String) : String :=
  String.mk (s.data.map Char.toUpper)

/-- The normalized machine id used in `AppConfig.csv_path` (config.py
lines 26-30): `machine_id.strip().upper()`. -/
def AppConfig.sanitized_machine (cfg : AppConfig) : String :=
  pyUpper (pyStrip cfg.machine_id)

/-- File name of the machine's event log (`CM_<sanitized>.csv`). -/
def AppConfig.csv_file_name (cfg : AppConfig) : String :=
  "CM_" ++ cfg.sanitized_machine ++ ".csv"

/-- The key every `save_cycle_state` / `load_cycle_state` /
`clear_cycle_state` call made by the monitor passes: the raw
`self.config.machine_id` (gpio_monitor.py lines 121, 133, 213, 485). -/
def AppConfig.state_store_key (cfg : AppConfig) : String :=
  cfg.machine_id

/-! ## Sample data used by concrete instantiations -/

/-- A concrete initialized monitor: counter at 4 with a far-off boundary,
one row already in the log file and one pending row loaded. -/
def sampleMonitor : Monitor :=
  { machine_id := "M201"
    counter := ⟨3, 4, some 100000⟩
    log := ⟨[["9", "M201", "x"]], none, [["4", "M201", "q"]], true⟩
    counter_initialized := true
    stats_last_event := none
    stats_events_logged := 0
    state_store := none
    sidecar_state := none }

/-- A concrete aware timestamp before `sampleMonitor`'s boundary. -/
def sampleDT1 : PyDateTime := ⟨500, some 0⟩

/-- A later concrete aware timestamp, still before the boundary. -/
def sampleDT2 : PyDateTime := ⟨600, some 0⟩

/-- A concrete empty log state with pending rows loaded. -/
def sampleLog : LogState := ⟨[], none, [], true⟩

/-! ### Loop lemmas -/

theorem resetLoop_eq (t count nr : Int) :
    resetLoop t count nr = if nr ≤ t then resetLoop t 0 (nr + 86400) else (count, nr) := by
  rw [resetLoop.eq_def, dite_eq_ite]

theorem resetLoop_of_lt {t nr : Int} (count : Int) (h : t < nr) :
    resetLoop t count nr = (count, nr) := by
  rw [resetLoop_eq]
  simp [not_le.mpr h]

theorem resetLoop_zero_fst (t : Int) : ∀ n nr, (t + 1 - nr).toNat = n → (resetLoop t 0 nr).1 = 0 := by
  intro n
  induction n using Nat.strong_induction_on with
  | _ n ih =>
    intro nr hn
    rw [resetLoop_eq]
    by_cases h : nr ≤ t
    · simp only [if_pos h]
      exact ih (t + 1 - (nr + 86400)).toNat (by omega) _ rfl
    · simp [h]

theorem resetLoop_snd_gt (t : Int) : ∀ n count nr, (t + 1 - nr).toNat = n → t < (resetLoop t count nr).2 := by
  intro n
  induction n using Nat.strong_induction_on with
  | _ n ih =>
    intro count nr hn
    rw [resetLoop_eq]
    by_cases h : nr ≤ t
    · simp only [if_pos h]
      exact ih (t + 1 - (nr + 86400)).toNat (by omega) 0 _ rfl
    · simp only [if_neg h]
      omega

theorem resetLoop_fst_of_le {t nr : Int} (count : Int) (h : nr ≤ t) :
    (resetLoop t count nr).1 = 0 := by
  rw [resetLoop_eq, if_pos h]
  exact resetLoop_zero_fst t _ _ rfl

theorem resetLoop_fst_cases (t count nr : Int) :
    (resetLoop t count nr).1 = count ∨ (resetLoop t count nr).1 = 0 := by
  by_cases h : nr ≤ t
  · exact Or.inr (resetLoop_fst_of_le count h)
  · exact Or.inl (by rw [resetLoop_of_lt count (by omega)])

theorem calculate_next_reset_gt (c : CycleCounter) (reference : Int) :
    reference < c.calculate_next_reset reference := by
  unfold CycleCounter.calculate_next_reset
  have h2 := Int.fdiv_add_fmod reference 86400
  have h3 := Int.fmod_nonneg' reference (by norm_num : (0 : Int) < 86400)
  have h5 := Int.fmod_lt_of_pos reference (by norm_num : (0 : Int) < 86400)
  have h1 : (Int.fdiv reference 86400) * 86400 ≤ reference := by
    rw [Int.mul_comm]; omega
  have h4 : reference < (Int.fdiv reference 86400) * 86400 + 86400 := by
    rw [Int.mul_comm]; omega
  by_cases h : reference < (Int.fdiv reference 86400) * 86400 + (c.reset_hour : Int) * 3600
  · simp only [if_pos h]; exact h
  · simp only [if_neg h]
    have h6 : (0 : Int) ≤ (c.reset_hour : Int) * 3600 := by positivity
    omega

/-- `record` written without its internal `let`s: the boundary seed is
the stored one (or the freshly calculated one), and count/boundary come
from the reset loop. -/
theorem record_def (c : CycleCounter) (t : Int) :
    c.record t
      = ((resetLoop t c.count (c.next_reset.getD (c.calculate_next_reset t))).1 + 1,
        { c with
          count := (resetLoop t c.count (c.next_reset.getD (c.calculate_next_reset t))).1 + 1,
          next_reset :=
            some (resetLoop t c.count (c.next_reset.getD (c.calculate_next_reset t))).2 }) := by
  obtain ⟨rh0, cnt0, nr0⟩ := c
  cases nr0 <;> rfl

/-- A record strictly before the boundary leaves the boundary in place
and increments the count. -/
theorem record_of_lt {c : CycleCounter} {nr : Int} (t : Int)
    (hnr : c.next_reset = some nr) (ht : t < nr) :
    c.record t = (c.count + 1, { c with count := c.count + 1, next_reset := some nr }) := by
  simp [CycleCounter.record, hnr, resetLoop_of_lt _ ht]

/-- Recording any list of timestamps that all precede the standing
boundary yields consecutive counts and never moves the boundary. -/
theorem recordList_no_reset :
    ∀ (ts : List Int) (c : CycleCounter) (nr : Int), c.next_reset = some nr →
      (∀ t ∈ ts, t < nr) →
      (c.recordList ts).1
        = (List.range ts.length).map (fun (i : Nat) => c.count + (i : Int) + 1) := by
  intro ts
  induction ts with
  | nil => intro c nr _ _; simp [CycleCounter.recordList]
  | cons t rest ih =>
    intro c nr hnr hlt
    have h1 : t < nr := hlt t (by simp)
    have hrec := record_of_lt t hnr h1
    simp only [CycleCounter.recordList, hrec]
    have h2 :
        (({ c with count := c.count + 1, next_reset := some nr } : CycleCounter).recordList
          rest).1
          = (List.range rest.length).map (fun (i : Nat) => c.count + 1 + (i : Int) + 1) := by
      exact ih _ nr rfl (fun x hx => hlt x (by simp [hx]))
    simp only [h2, List.length_cons, List.range_succ_eq_map, List.map_cons, List.map_map]
    refine List.cons_eq_cons.mpr ⟨by push_cast; ring, ?_⟩
    apply List.map_congr_left
    intro i _
    simp only [Function.comp]
    push_cast
    ring

/-! ## Claims -/

/-- C1: For every configured reset hour and every counter state whose
`next_reset` is set, calling `record` with a timestamp at or past
`next_reset` zeroes the count exactly once and returns 1 (the final
count is 1), no matter how many daily boundaries lie in between; and
concretely, with `reset_hour = 3` and an unconfigured counter, recording
at 2024-01-01T02:00:00, 2024-01-01T04:00:00 and 2024-01-01T05:00:00
returns 1, 1, 2 (seconds-since-0001 encodings of those instants). -/
theorem C1_boundary_crossing_resets_once (c : CycleCounter) (nr t : Int)
    (hnr : c.next_reset = some nr) (ht : nr ≤ t) :
    (c.record t).1 = 1 ∧ ((c.record t).2).count = 1 ∧
    ((CycleCounter.init 3).recordList [63839671200, 63839678400, 63839682000]).1
      = [1, 1, 2] := by
  refine ⟨?_, ?_, ?_⟩
  · simp [CycleCounter.record, hnr, resetLoop_fst_of_le c.count ht]
  · simp [CycleCounter.record, hnr, resetLoop_fst_of_le c.count ht]
  · simp [CycleCounter.recordList, CycleCounter.record, CycleCounter.init,
          CycleCounter.calculate_next_reset, resetLoop_eq]

/-- Witness instantiating C1 at a concrete counter and timestamp. -/
theorem C1_boundary_crossing_resets_once_witness :
    (⟨3, 41, some 100⟩ : CycleCounter).next_reset = some 100 ∧ ((100 : Int) ≤ 200000) ∧
    (((⟨3, 41, some 100⟩ : CycleCounter).record 200000).1 = 1 ∧
      (((⟨3, 41, some 100⟩ : CycleCounter).record 200000).2).count = 1 ∧
      ((CycleCounter.init 3).recordList [63839671200, 63839678400, 63839682000]).1
        = [1, 1, 2]) :=
  ⟨rfl, by decide,
    C1_boundary_crossing_resets_once ⟨3, 41, some 100⟩ 100 200000 rfl (by decide)⟩

/-- C2: starting from a fresh counter, strictly increasing timestamps
all strictly before the boundary computed from the first one yield the
cycle numbers 1, 2, 3, …; and `configure(reference, N)` followed by a
`record` at any timestamp after the reference and strictly before the
computed next reset returns `N + 1`. -/
theorem C2_sequential_numbering (rh : Nat) (t0 : Int) (rest : List Int)
    (hchain : List.Chain' (· < ·) (t0 :: rest))
    (hbound : ∀ t ∈ t0 :: rest, t < (CycleCounter.init rh).calculate_next_reset t0)
    (c : CycleCounter) (reference : Int) (N : Nat) (t : Int)
    (href : reference < t) (ht : t < c.calculate_next_reset reference) :
    ((CycleCounter.init rh).recordList (t0 :: rest)).1
      = (List.range (t0 :: rest).length).map (fun (i : Nat) => (i : Int) + 1)
    ∧ ((c.configure reference (N : Int)).record t).1 = (N : Int) + 1 := by
  constructor
  · have hgt : t0 < (⟨rh, 0, none⟩ : CycleCounter).calculate_next_reset t0 :=
      calculate_next_reset_gt _ t0
    have hfirst :
        (CycleCounter.init rh).record t0
          = (1, (⟨rh, 1, some ((⟨rh, 0, none⟩ : CycleCounter).calculate_next_reset t0)⟩ :
              CycleCounter)) := by
      show (⟨rh, 0, none⟩ : CycleCounter).record t0 = _
      rw [record_def]
      simp [resetLoop_of_lt _ hgt]
    simp only [CycleCounter.recordList, hfirst]
    have hrest := recordList_no_reset rest
      (⟨rh, 1, some ((⟨rh, 0, none⟩ : CycleCounter).calculate_next_reset t0)⟩ : CycleCounter)
      ((⟨rh, 0, none⟩ : CycleCounter).calculate_next_reset t0) rfl
      (fun x hx => hbound x (by simp [hx]))
    simp only [hrest, List.length_cons, List.range_succ_eq_map, List.map_cons, List.map_map]
    refine List.cons_eq_cons.mpr ⟨by norm_num, ?_⟩
    apply List.map_congr_left
    intro i _
    simp only [Function.comp]
    push_cast
    ring
  · have hnr : (c.configure reference (N : Int)).next_reset
        = some (c.calculate_next_reset reference) := rfl
    have h2 := record_of_lt t hnr ht
    rw [h2]
    simp [CycleCounter.configure]

/-- Witness instantiating C2 with `reset_hour = 3`, three in-day
timestamps, and a reseed at count 5. -/
theorem C2_sequential_numbering_witness :
    List.Chain' (· < ·) [(7200 : Int), 10000, 10700] ∧
    (∀ t ∈ [(7200 : Int), 10000, 10700],
      t < (CycleCounter.init 3).calculate_next_reset 7200) ∧
    ((7200 : Int) < 8000) ∧
    ((8000 : Int) < (⟨3, 0, none⟩ : CycleCounter).calculate_next_reset 7200) ∧
    (((CycleCounter.init 3).recordList ((7200 : Int) :: [10000, 10700])).1
        = (List.range ((7200 : Int) :: [(10000 : Int), 10700]).length).map
            (fun (i : Nat) => (i : Int) + 1)
      ∧ (((⟨3, 0, none⟩ : CycleCounter).configure 7200 ((5 : Nat) : Int)).record 8000).1
          = ((5 : Nat) : Int) + 1) :=
  ⟨by norm_num [List.chain'_cons], by decide, by decide, by decide,
    C2_sequential_numbering 3 7200 [10000, 10700] (by norm_num [List.chain'_cons])
      (by decide) ⟨3, 0, none⟩ 7200 5 8000 (by decide) (by decide)⟩

/-- C10: for every counter state with a non-negative count, after
`record t` the boundary is set and strictly beyond `t`, and the returned
value equals the new count and is at least 1. -/
theorem C10_record_postcondition (c : CycleCounter) (t : Int) (h : 0 ≤ c.count) :
    ∃ nr, ((c.record t).2).next_reset = some nr ∧ t < nr
      ∧ (c.record t).1 = ((c.record t).2).count ∧ 1 ≤ (c.record t).1 := by
  rw [record_def]
  refine ⟨_, rfl, resetLoop_snd_gt t _ _ _ rfl, rfl, ?_⟩
  rcases resetLoop_fst_cases t c.count
    (c.next_reset.getD (c.calculate_next_reset t)) with h1 | h1 <;> omega

/-- Witness instantiating C10 at a fresh counter. -/
theorem C10_record_postcondition_witness :
    (0 : Int) ≤ (⟨3, 0, none⟩ : CycleCounter).count ∧
    (∃ nr, (((⟨3, 0, none⟩ : CycleCounter).record 7200).2).next_reset = some nr
      ∧ (7200 : Int) < nr
      ∧ ((⟨3, 0, none⟩ : CycleCounter).record 7200).1
          = (((⟨3, 0, none⟩ : CycleCounter).record 7200).2).count
      ∧ 1 ≤ ((⟨3, 0, none⟩ : CycleCounter).record 7200).1) :=
  ⟨by decide, C10_record_postcondition ⟨3, 0, none⟩ 7200 (by decide)⟩

/-- C3: startup reconciliation with both state copies present adopts the
one with the strictly later (comparable) timestamp — syncing it into the
losing store — and a single present copy is adopted with no sync; in
particular StateStore `{cycle 5, T1}` against sidecar `{cycle 7, T2}`
with `T2 > T1` adopts cycle 7 and rewrites the StateStore entry to
`(7, T2)`. -/
theorem C3_startup_reconciliation (counter : CycleCounter) (localOff : Int)
    (p s p2 s2 q r : MachineState)
    (hgt : pyGt s.last_timestamp p.last_timestamp = .ok true)
    (hle : pyGt s2.last_timestamp p2.last_timestamp = .ok false) :
    restore_counter_state counter (some p) (some s) localOff
      = .ok ⟨some s, ⟨some (s.last_cycle, s.last_timestamp), none⟩,
          counter.configure
            (((s.last_timestamp.utcIfNaive).astimezoneLocal localOff).wall) s.last_cycle,
          true⟩
    ∧ restore_counter_state counter (some p2) (some s2) localOff
      = .ok ⟨some p2, ⟨none, some (p2.last_cycle, p2.last_timestamp)⟩,
          counter.configure
            (((p2.last_timestamp.utcIfNaive).astimezoneLocal localOff).wall) p2.last_cycle,
          true⟩
    ∧ restore_counter_state counter (some q) none localOff
      = .ok ⟨some q, ⟨none, none⟩,
          counter.configure
            (((q.last_timestamp.utcIfNaive).astimezoneLocal localOff).wall) q.last_cycle,
          true⟩
    ∧ restore_counter_state counter none (some r) localOff
      = .ok ⟨some r, ⟨none, none⟩,
          counter.configure
            (((r.last_timestamp.utcIfNaive).astimezoneLocal localOff).wall) r.last_cycle,
          true⟩
    ∧ (restore_from_stores (CycleCounter.init 3) "M201"
          (some ⟨5, "2024-01-01T00:00:00+00:00"⟩)
          (some ⟨7, "2024-01-02T00:00:00+00:00"⟩) 0).map
        (fun x => (x.chosen.map MachineState.last_cycle, x.saves.state_store))
      = .ok (some 7, some (7, ⟨63839750400, some 0⟩)) := by
  refine ⟨?_, ?_, ?_, ?_, ?_⟩
  · simp [restore_counter_state, hgt]
  · simp [restore_counter_state, hle]
  · simp [restore_counter_state]
  · simp [restore_counter_state]
  · rfl

/-- Witness instantiating C3 with concrete aware timestamps. -/
theorem C3_startup_reconciliation_witness :
    pyGt (⟨2000, some 0⟩ : PyDateTime) (⟨1000, some 0⟩ : PyDateTime) = .ok true ∧
    pyGt (⟨1000, some 0⟩ : PyDateTime) (⟨2000, some 0⟩ : PyDateTime) = .ok false ∧
    (restore_counter_state (CycleCounter.init 3)
        (some ⟨"M201", 5, ⟨1000, some 0⟩⟩) (some ⟨"M201", 7, ⟨2000, some 0⟩⟩) 0
      = .ok ⟨some ⟨"M201", 7, ⟨2000, some 0⟩⟩, ⟨some (7, ⟨2000, some 0⟩), none⟩,
          (CycleCounter.init 3).configure
            ((((⟨2000, some 0⟩ : PyDateTime).utcIfNaive).astimezoneLocal 0).wall) 7,
          true⟩
    ∧ restore_counter_state (CycleCounter.init 3)
        (some ⟨"M201", 5, ⟨2000, some 0⟩⟩) (some ⟨"M201", 7, ⟨1000, some 0⟩⟩) 0
      = .ok ⟨some ⟨"M201", 5, ⟨2000, some 0⟩⟩, ⟨none, some (5, ⟨2000, some 0⟩)⟩,
          (CycleCounter.init 3).configure
            ((((⟨2000, some 0⟩ : PyDateTime).utcIfNaive).astimezoneLocal 0).wall) 5,
          true⟩
    ∧ restore_counter_state (CycleCounter.init 3)
        (some ⟨"M201", 5, ⟨1000, some 0⟩⟩) none 0
      = .ok ⟨some ⟨"M201", 5, ⟨1000, some 0⟩⟩, ⟨none, none⟩,
          (CycleCounter.init 3).configure
            ((((⟨1000, some 0⟩ : PyDateTime).utcIfNaive).astimezoneLocal 0).wall) 5,
          true⟩
    ∧ restore_counter_state (CycleCounter.init 3)
        none (some ⟨"M201", 7, ⟨2000, some 0⟩⟩) 0
      = .ok ⟨some ⟨"M201", 7, ⟨2000, some 0⟩⟩, ⟨none, none⟩,
          (CycleCounter.init 3).configure
            ((((⟨2000, some 0⟩ : PyDateTime).utcIfNaive).astimezoneLocal 0).wall) 7,
          true⟩
    ∧ (restore_from_stores (CycleCounter.init 3) "M201"
          (some ⟨5, "2024-01-01T00:00:00+00:00"⟩)
          (some ⟨7, "2024-01-02T00:00:00+00:00"⟩) 0).map
        (fun x => (x.chosen.map MachineState.last_cycle, x.saves.state_store))
      = .ok (some 7, some (7, ⟨63839750400, some 0⟩))) :=
  ⟨rfl, rfl,
    C3_startup_reconciliation (CycleCounter.init 3) 0
      ⟨"M201", 5, ⟨1000, some 0⟩⟩ ⟨"M201", 7, ⟨2000, some 0⟩⟩
      ⟨"M201", 5, ⟨2000, some 0⟩⟩ ⟨"M201", 7, ⟨1000, some 0⟩⟩
      ⟨"M201", 5, ⟨1000, some 0⟩⟩ ⟨"M201", 7, ⟨2000, some 0⟩⟩
      rfl rfl⟩

/-- C5 (failing-input evaluation): a StateStore entry whose timestamp was
stored without a timezone, alongside any well-formed sidecar entry,
makes the startup reconciliation raise `TypeError` out of `Start` —
the naive/aware comparison on gpio_monitor.py line 126 is uncaught —
instead of recovering by falling back to defaults. -/
theorem C5_naive_store_timestamp_raises :
    restore_from_stores (CycleCounter.init 3) "M201"
        (some ⟨5, "2024-01-01T00:00:00"⟩)
        (some ⟨7, "2024-01-02T00:00:00+00:00"⟩) (-18000)
      = .error .typeError := by
  rfl

/-- A pending list extended by the new row is non-empty, so the spool is
rewritten rather than deleted. -/
theorem persist_pending_rows_append (p : List (List String)) (row : List String) :
    persist_pending_rows (p ++ [row]) = some (p ++ [row]) := by
  cases p <;> simp [persist_pending_rows]

/-- `_record_event` on a failed append, before any reset boundary:
the cycle number is still returned, the row joins the pending list and
the spool, the log file is untouched, and both state copies are saved. -/
theorem record_event_fail_eq (m : Monitor) (t : PyDateTime) (nr : Int)
    (hload : m.log.pending_loaded = true)
    (hnr : m.counter.next_reset = some nr) (hlt : t.wall < nr) :
    record_event m t true false
      = (some (m.counter.count + 1),
         { m with
           counter := { m.counter with count := m.counter.count + 1, next_reset := some nr },
           log := { m.log with
             pending := m.log.pending
               ++ [[toString (m.counter.count + 1), m.machine_id, isoformatPy t]],
             spool := some (m.log.pending
               ++ [[toString (m.counter.count + 1), m.machine_id, isoformatPy t]]) },
           state_store := some (m.counter.count + 1, t),
           sidecar_state := some (m.counter.count + 1, t) }) := by
  have hrec := record_of_lt t.wall hnr hlt
  simp [record_event, hrec, append_with_retry, load_pending_rows, hload,
        persist_pending_rows_append]

/-- `_record_event` on a successful append, before any reset boundary:
the pending rows are flushed ahead of the new row in one pass, the
pending list empties and the spool file is removed. -/
theorem record_event_ok_eq (m : Monitor) (t : PyDateTime) (nr : Int)
    (hload : m.log.pending_loaded = true)
    (hnr : m.counter.next_reset = some nr) (hlt : t.wall < nr) :
    record_event m t true true
      = (some (m.counter.count + 1),
         { m with
           counter := { m.counter with count := m.counter.count + 1, next_reset := some nr },
           log := { m.log with
             csv := m.log.csv ++ m.log.pending
               ++ [[toString (m.counter.count + 1), m.machine_id, isoformatPy t]],
             pending := [],
             spool := none },
           state_store := some (m.counter.count + 1, t),
           sidecar_state := some (m.counter.count + 1, t) }) := by
  have hrec := record_of_lt t.wall hnr hlt
  simp [record_event, hrec, append_with_retry, load_pending_rows, hload,
        persist_pending_rows]

/-- C4: with pending rows already loaded, a failing append inside
`RecordEvent` still returns the correct next cycle number, keeps the
computed row in the pending list and writes it to the spool file while
the log file is untouched; any successful append writes all pending rows
oldest-first ahead of the new row in a single pass; and the subsequent
successful `RecordEvent` flushes exactly the spooled rows ahead of its
own row — consecutive cycle numbers, no duplication, empty pending list,
spool file removed. -/
theorem C4_spool_durability_on_append_failure (m : Monitor) (t1 t2 : PyDateTime) (nr : Int)
    (hload : m.log.pending_loaded = true)
    (hnr : m.counter.next_reset = some nr)
    (h1 : t1.wall < nr) (h2 : t2.wall < nr)
    (st : LogState) (row : List String) (hst : st.pending_loaded = true) :
    ((append_with_retry st row true).2.csv = st.csv ++ st.pending ++ [row]
      ∧ (append_with_retry st row true).2.pending = []
      ∧ (append_with_retry st row true).2.spool = none)
    ∧ (record_event m t1 true false).1 = some (m.counter.count + 1)
    ∧ (record_event m t1 true false).2.log.csv = m.log.csv
    ∧ (record_event m t1 true false).2.log.pending
        = m.log.pending ++ [[toString (m.counter.count + 1), m.machine_id, isoformatPy t1]]
    ∧ (record_event m t1 true false).2.log.spool
        = some (m.log.pending
            ++ [[toString (m.counter.count + 1), m.machine_id, isoformatPy t1]])
    ∧ (record_event (record_event m t1 true false).2 t2 true true).1
        = some (m.counter.count + 2)
    ∧ (record_event (record_event m t1 true false).2 t2 true true).2.log.csv
        = m.log.csv ++ m.log.pending
            ++ [[toString (m.counter.count + 1), m.machine_id, isoformatPy t1],
                [toString (m.counter.count + 2), m.machine_id, isoformatPy t2]]
    ∧ (record_event (record_event m t1 true false).2 t2 true true).2.log.pending = []
    ∧ (record_event (record_event m t1 true false).2 t2 true true).2.log.spool = none := by
  have hfail := record_event_fail_eq m t1 nr hload hnr h1
  refine ⟨⟨?_, ?_, ?_⟩, ?_, ?_, ?_, ?_, ?_, ?_, ?_, ?_⟩
  · simp [append_with_retry, load_pending_rows, hst, persist_pending_rows]
  · simp [append_with_retry, load_pending_rows, hst, persist_pending_rows]
  · simp [append_with_retry, load_pending_rows, hst, persist_pending_rows]
  · rw [hfail]
  · rw [hfail]
  · rw [hfail]
  · rw [hfail]
  all_goals
    rw [hfail]
    rw [record_event_ok_eq _ t2 nr (by simp [hload]) (by simp) h2]
    try simp [show m.counter.count + 1 + 1 = m.counter.count + 2 from by ring]

/-- Witness instantiating C4 at `sampleMonitor`. -/
theorem C4_spool_durability_on_append_failure_witness :
    sampleMonitor.log.pending_loaded = true ∧
    sampleMonitor.counter.next_reset = some 100000 ∧
    sampleDT1.wall < 100000 ∧ sampleDT2.wall < 100000 ∧
    sampleLog.pending_loaded = true ∧
    (((append_with_retry sampleLog ["r"] true).2.csv
        = sampleLog.csv ++ sampleLog.pending ++ [["r"]]
      ∧ (append_with_retry sampleLog ["r"] true).2.pending = []
      ∧ (append_with_retry sampleLog ["r"] true).2.spool = none)
    ∧ (record_event sampleMonitor sampleDT1 true false).1
        = some (sampleMonitor.counter.count + 1)
    ∧ (record_event sampleMonitor sampleDT1 true false).2.log.csv = sampleMonitor.log.csv
    ∧ (record_event sampleMonitor sampleDT1 true false).2.log.pending
        = sampleMonitor.log.pending
          ++ [[toString (sampleMonitor.counter.count + 1), sampleMonitor.machine_id,
               isoformatPy sampleDT1]]
    ∧ (record_event sampleMonitor sampleDT1 true false).2.log.spool
        = some (sampleMonitor.log.pending
            ++ [[toString (sampleMonitor.counter.count + 1), sampleMonitor.machine_id,
                 isoformatPy sampleDT1]])
    ∧ (record_event (record_event sampleMonitor sampleDT1 true false).2 sampleDT2 true true).1
        = some (sampleMonitor.counter.count + 2)
    ∧ (record_event (record_event sampleMonitor sampleDT1 true false).2 sampleDT2
          true true).2.log.csv
        = sampleMonitor.log.csv ++ sampleMonitor.log.pending
            ++ [[toString (sampleMonitor.counter.count + 1), sampleMonitor.machine_id,
                 isoformatPy sampleDT1],
                [toString (sampleMonitor.counter.count + 2), sampleMonitor.machine_id,
                 isoformatPy sampleDT2]]
    ∧ (record_event (record_event sampleMonitor sampleDT1 true false).2 sampleDT2
          true true).2.log.pending = []
    ∧ (record_event (record_event sampleMonitor sampleDT1 true false).2 sampleDT2
          true true).2.log.spool = none) :=
  ⟨rfl, rfl, by decide, by decide, rfl,
    C4_spool_durability_on_append_failure sampleMonitor sampleDT1 sampleDT2 100000
      rfl rfl (by decide) (by decide) sampleLog ["r"] rfl⟩

/-- Rows that are all too short or carry no parsable trailing timestamp
produce no migrated rows, whatever the replay counter's state. -/
theorem migrateRows_eq_nil (rows : List (List String))
    (hbad : ∀ r ∈ rows, r.length < 2 ∨ fromisoformat (r.getLastD "") = none) :
    ∀ c : CycleCounter, migrateRows c rows = [] := by
  induction rows with
  | nil => intro c; rfl
  | cons row rest ih =>
    intro c
    have hrest : ∀ r ∈ rest, r.length < 2 ∨ fromisoformat (r.getLastD "") = none :=
      fun r hx => hbad r (by simp [hx])
    rcases hbad row (by simp) with h | h
    · simp [migrateRows, show ¬ 2 ≤ row.length from by omega, ih hrest]
    · by_cases hl : 2 ≤ row.length
      · have h' : fromisoformat (row.getLast?.getD "") = none := by
          simpa [List.getLastD_eq_getLast?] using h
        simp [migrateRows, hl, h', ih hrest]
      · simp [migrateRows, hl, ih hrest]

/-- C6: an existing log whose header is not the current schema and whose
data rows offer nothing migratable (each too short or with an unparsable
trailing timestamp) is rewritten by storage initialization to a fresh
header-only file; every prior data row is discarded. -/
theorem C6_corrupted_log_reset_to_header (header : List String)
    (data_rows : List (List String))
    (hh : header ≠ csv_header)
    (hbad : ∀ r ∈ data_rows, r.length < 2 ∨ fromisoformat (r.getLastD "") = none) :
    prepare_storage_file (some (header :: data_rows)) = [csv_header] := by
  simp [prepare_storage_file, ensure_migrated_file, hh,
        migrateRows_eq_nil data_rows hbad (CycleCounter.init 3)]

/-- Witness instantiating C6 on a garbage two-column file. -/
theorem C6_corrupted_log_reset_to_header_witness :
    (["corrupt", "stuff"] : List String) ≠ csv_header ∧
    (∀ r ∈ [["a"], ["x", "y"]], List.length r < 2 ∨ fromisoformat (r.getLastD "") = none) ∧
    prepare_storage_file (some (["corrupt", "stuff"] :: [["a"], ["x", "y"]])) = [csv_header] :=
  ⟨by decide, by decide,
    C6_corrupted_log_reset_to_header ["corrupt", "stuff"] [["a"], ["x", "y"]]
      (by decide) (by decide)⟩

/-- C7: storage initialization on a log whose header already equals the
current schema leaves the file exactly as it was. -/
theorem C7_initialize_idempotent_on_migrated (rest : List (List String)) :
    prepare_storage_file (some (csv_header :: rest)) = csv_header :: rest := by
  simp [prepare_storage_file, ensure_migrated_file]

/-- C8 counterexample: on the manual test-event path a raising callback
propagates to the invoker (`simulate_event` has no try/except around the
callback), contradicting isolation on every invocation path. -/
theorem C8_counterexample_simulate_event_raises :
    (simulate_event sampleMonitor none none 0 sampleDT1 true true true true).2
      = .error .callback := by
  rfl

/-- C8 amended: a raising callback is isolated on the hardware-edge path
(`_handle_event`): same resulting state as a non-raising callback and no
propagation; on the manual test path (`simulate_event`) the monitor
state is likewise unaffected by the callback failure, but the exception
itself escapes to the invoker. -/
theorem C8_callback_isolation_amended (m : Monitor) (t : PyDateTime)
    (p s : Option MachineState) (localOff : Int)
    (prepare_ok append_ok : Bool)
    (hm : m.counter_initialized = true) :
    handle_event m t prepare_ok append_ok true true
        = handle_event m t prepare_ok append_ok true false
    ∧ (handle_event m t prepare_ok append_ok true true).2 = .ok
    ∧ (simulate_event m p s localOff t prepare_ok append_ok true true).1
        = (simulate_event m p s localOff t prepare_ok append_ok true false).1
    ∧ (simulate_event m p s localOff t prepare_ok append_ok true true).2
        = .error .callback := by
  refine ⟨rfl, ?_, ?_, ?_⟩
  · rcases h : (record_event m t prepare_ok append_ok).1 with _ | n <;>
      simp [handle_event, h]
  · simp [simulate_event, hm]
  · simp [simulate_event, hm]

/-- Witness instantiating the amended C8 at `sampleMonitor`. -/
theorem C8_callback_isolation_amended_witness :
    sampleMonitor.counter_initialized = true ∧
    (handle_event sampleMonitor sampleDT1 true true true true
        = handle_event sampleMonitor sampleDT1 true true true false
    ∧ (handle_event sampleMonitor sampleDT1 true true true true).2 = .ok
    ∧ (simulate_event sampleMonitor none none 0 sampleDT1 true true true true).1
        = (simulate_event sampleMonitor none none 0 sampleDT1 true true true false).1
    ∧ (simulate_event sampleMonitor none none 0 sampleDT1 true true true true).2
        = .error .callback) :=
  ⟨rfl, C8_callback_isolation_amended sampleMonitor sampleDT1 none none 0 true true rfl⟩

/-- C9 counterexample: the key
`CycleMonitor` passes to `save_cycle_state` is the raw configured
machine id, which differs from the normalized id that names the log
file. -/
theorem C9_counterexample_raw_state_key :
    (⟨"m201"⟩ : AppConfig).state_store_key ≠ (⟨"m201"⟩ : AppConfig).sanitized_machine := by
  decide

/-- C9 amended: only the log file name uses the normalized (trimmed,
upper-cased) machine id; StateStore saves, loads and deletes key on the
raw configured id, so configurations that agree after normalization
share a log file while raw-distinct ids address distinct state
entries. -/
theorem C9_identifier_normalization_amended (cfg c1 c2 : AppConfig)
    (h : c1.sanitized_machine = c2.sanitized_machine) :
    cfg.state_store_key = cfg.machine_id
    ∧ cfg.csv_file_name = "CM_" ++ pyUpper (pyStrip cfg.machine_id) ++ ".csv"
    ∧ c1.csv_file_name = c2.csv_file_name
    ∧ (⟨"m201"⟩ : AppConfig).csv_file_name = (⟨"M201"⟩ : AppConfig).csv_file_name
    ∧ (⟨"m201"⟩ : AppConfig).state_store_key ≠ (⟨"M201"⟩ : AppConfig).state_store_key := by
  refine ⟨rfl, rfl, ?_, by decide, by decide⟩
  simp [AppConfig.csv_file_name, AppConfig.sanitized_machine] at h ⊢
  rw [h]

/-- Witness instantiating the amended C9 on ids agreeing only after
normalization. -/
theorem C9_identifier_normalization_amended_witness :
    (⟨" m201 "⟩ : AppConfig).sanitized_machine = (⟨"M201"⟩ : AppConfig).sanitized_machine ∧
    ((⟨"a"⟩ : AppConfig).state_store_key = (⟨"a"⟩ : AppConfig).machine_id
    ∧ (⟨"a"⟩ : AppConfig).csv_file_name = "CM_" ++ pyUpper (pyStrip "a") ++ ".csv"
    ∧ (⟨" m201 "⟩ : AppConfig).csv_file_name = (⟨"M201"⟩ : AppConfig).csv_file_name
    ∧ (⟨"m201"⟩ : AppConfig).csv_file_name = (⟨"M201"⟩ : AppConfig).csv_file_name
    ∧ (⟨"m201"⟩ : AppConfig).state_store_key ≠ (⟨"M201"⟩ : AppConfig).state_store_key) :=
  ⟨by decide, C9_identifier_normalization_amended ⟨"a"⟩ ⟨" m201 "⟩ ⟨"M201"⟩ (by decide)⟩
